import Mathlib

/-!
# gohmr: an HTTP request mirror

A shallow embedding of `go-http-mirror.go`, `requestutils.go` and
`settings.go`.

Modelling conventions.

* A Go `[]byte` is a `List Nat`, a `time.Duration` is an `Int` of nanoseconds,
  a `uint32` is a `Nat` and a finite `float64` is the rational number it
  denotes (the source only compares such values with `<`).
* An `http.Header` is a finite map from keys to value lists, embedded as a
  function `String → Option (List String)`.
* A `*http.Request` is an `Option Request`; `none` is the nil pointer.  A
  `Request` stands for a request as a server handler receives it or as
  `http.ReadRequest` builds it: its `URL` and `Header` are allocated.
* Functions of the Go standard library and of `dataence/cityhash` are not part
  of the repository.  They are fields of `Lib`, and every theorem holds for
  every `Lib`.
* A run-time panic is a value of `GoPanic`; a function that can panic returns
  `Except GoPanic _`.
* Output on channels, on the standard output and calls into the reverse proxy
  are recorded as a list of `Event`s, in program order.
-/

namespace Gohmr

/-! ## Data model -/

/-- Contents of a Go byte slice. -/
abbrev Bytes := List Nat

/-- Go `http.Header`: a map from header names to their values. -/
abbrev Header := String → Option (List String)

/-- Assignment `h[key] = value` on a Go map. -/
def Header.set (h : Header) (key : String) (value : List String) : Header :=
  fun k => if k = key then some value else h k

/-- Run-time panics the embedded code can raise. -/
inductive GoPanic where
  | nilDereference
  | indexOutOfRange
deriving DecidableEq, Repr

/-- The fields of `url.URL` the program touches or forwards. -/
structure URL where
  Scheme : String
  Host : String
  Path : String
  RawQuery : String
deriving DecidableEq, Repr

/-- The fields of `http.Request` the program touches or forwards. -/
structure Request where
  Method : String
  URL : URL
  Header : Header
  Body : Bytes
  Host : String

/-- Go `SinkSettings` (`settings.go`). -/
structure SinkSettings where
  Address : String
  Latency : Int
  LossProbability : ℚ
deriving DecidableEq

/-- Go `StatRecord`. -/
structure StatRecord where
  RequestID : Nat
  WasSent : Bool
  WasReceived : Bool
  ResponseLength : Int
  ResponseStatus : Int
  Settings : SinkSettings
deriving DecidableEq

/-- Go `RequestInfo`. -/
structure RequestInfo where
  Request : Option Request
  RequestID : Nat

/-- Library functions used by the program, left uninterpreted.  A Go result
`(v, err)` whose `v` is read only when `err == nil` is an `Except`; the result
of `DumpRequestOut` is kept as a pair because `GetRequestID` reads both. -/
structure Lib where
  /-- Go `httputil.DumpRequestOut(request, true)`: the dump and the error. -/
  DumpRequestOut : Request → Bytes × Option String
  /-- Go `httputil.DumpRequest(request, true)`. -/
  DumpRequest : Request → Except String Bytes
  /-- Go `http.ReadRequest` on a buffered reader over the bytes. -/
  ReadRequest : Bytes → Except String Request
  /-- Go `cityhash.CityHash32(data, len)`. -/
  CityHash32 : Bytes → Nat → Nat
  /-- Go `strconv.ParseInt(s, base, bitSize)`. -/
  ParseInt : String → Int → Int → Except String Int
  /-- Go `time.ParseDuration(s)`, in nanoseconds. -/
  ParseDuration : String → Except String Int
  /-- Go `strconv.ParseFloat(s, bitSize)`. -/
  ParseFloat : String → Int → Except String ℚ

/-! ## The response capture: `RedirectResponseWriter` -/

/-- State of the client connection behind an `http.ResponseWriter`: the header
map it hands out, the status codes passed to `WriteHeader` and the body bytes
passed to `Write`. -/
structure ResponseWriter where
  Header : Header
  Codes : List Int
  Body : Bytes

/-- Go `RedirectResponseWriter`; `Writer = none` is the nil inner writer. -/
structure RedirectResponseWriter where
  Writer : Option ResponseWriter
  Headers : Header
  Status : Int

/-- Go `CreateRedirectWriter`; `make(http.Header)` is the empty map. -/
def CreateRedirectWriter (src_writer : Option ResponseWriter) : RedirectResponseWriter :=
  ⟨src_writer, fun _ => none, 0⟩

/-- Go `RedirectResponseWriter.Header`. -/
def RedirectResponseWriter.Header (writer : RedirectResponseWriter) : Header :=
  match writer.Writer with
  | some w => w.Header
  | none => writer.Headers

/-- Assignment through the map returned by `Header()`: the map is shared, so
the write lands in the inner writer when there is one. -/
def RedirectResponseWriter.setHeader (writer : RedirectResponseWriter) (key : String)
    (value : List String) : RedirectResponseWriter :=
  match writer.Writer with
  | some w => { writer with Writer := some { w with Header := w.Header.set key value } }
  | none => { writer with Headers := writer.Headers.set key value }

/-- Go `RedirectResponseWriter.Write`; the returned count is `len(data)`. -/
def RedirectResponseWriter.Write (writer : RedirectResponseWriter) (data : Bytes) :
    RedirectResponseWriter :=
  match writer.Writer with
  | some w => { writer with Writer := some { w with Body := w.Body ++ data } }
  | none => writer

/-- Go `RedirectResponseWriter.WriteHeader`. -/
def RedirectResponseWriter.WriteHeader (writer : RedirectResponseWriter) (code : Int) :
    RedirectResponseWriter :=
  match writer.Writer with
  | some w => { writer with Writer := some { w with Codes := w.Codes ++ [code] }, Status := code }
  | none => { writer with Status := code }

/-- The inner block of `ContentLength`: the lookup of `Content-Length`, the
indexing `cl[0]` and `strconv.ParseInt(cl[0], 0, 0)`. -/
def contentLengthValue (lib : Lib) (h : Header) : Except GoPanic Int :=
  match h "Content-Length" with
  | none => .ok 0
  | some [] => .error .indexOutOfRange
  | some (cl0 :: _) =>
    match lib.ParseInt cl0 0 0 with
    | .ok length => .ok length
    | .error _ => .ok 0

/-- Go `RedirectResponseWriter.ContentLength`.  The condition
`!te_err || te[0] == "identity"` indexes `te` only when the key is present. -/
def RedirectResponseWriter.ContentLength (lib : Lib) (writer : RedirectResponseWriter) :
    Except GoPanic Int :=
  match writer.Header "Transfer-Encoding" with
  | none => contentLengthValue lib writer.Header
  | some [] => .error .indexOutOfRange
  | some (te0 :: _) =>
    if te0 = "identity" then contentLengthValue lib writer.Header else .ok 0

/-! ## Request identifier -/

/-- Go `GetRequestID`; `now` is `[]byte(time.Now().String())`. -/
def GetRequestID (lib : Lib) (now : Bytes) (request : Request) : Nat :=
  let (dump, err) := lib.DumpRequestOut request
  let dump := dump ++ now
  if err ≠ none then lib.CityHash32 dump (dump.length % 2 ^ 32) else 0

/-! ## Request utilities (`requestutils.go`) -/

/-- Go `Copy`.  A nil argument is dereferenced inside `DumpRequest`. -/
def Copy (lib : Lib) (request : Option Request) : Except GoPanic (Option Request) :=
  match request with
  | none => .error .nilDereference
  | some r =>
    match lib.DumpRequest r with
    | .error _ => .ok none
    | .ok buffer =>
      match lib.ReadRequest buffer with
      | .error _ => .ok none
      | .ok result => .ok (some result)

/-- Go `ChangeDestination`: three assignments through the request pointer. -/
def ChangeDestination (request : Option Request) (host : String) : Except GoPanic Request :=
  match request with
  | none => .error .nilDereference
  | some r =>
    let r := { r with URL := { r.URL with Host := host } }
    let r := { r with Header := r.Header.set "Host" [host] }
    .ok { r with Host := host }

/-! ## Mirrors and dispatch -/

/-- One call the reverse proxy makes on the response writer it is given. -/
inductive WriterOp where
  | setHeader (key : String) (value : List String)
  | writeHeader (code : Int)
  | write (data : Bytes)

/-- Effect of one proxy call on the capture. -/
def WriterOp.apply (writer : RedirectResponseWriter) : WriterOp → RedirectResponseWriter
  | .setHeader key value => writer.setHeader key value
  | .writeHeader code => writer.WriteHeader code
  | .write data => writer.Write data

/-- Go `HttpMirror`.  `Proxy` is the behaviour of the `httputil.ReverseProxy`
during the run: the calls it makes on the response writer for a request, which
depend on the network and on the destination.  The two channels are recorded
as events. -/
structure HttpMirror where
  Proxy : Request → List WriterOp
  Settings : SinkSettings

/-- Go `HttpMirror.ServeHTTP`: hands the request to the proxy. -/
def HttpMirror.ServeHTTP (mirror : HttpMirror) (response : RedirectResponseWriter)
    (request : Request) : RedirectResponseWriter :=
  (mirror.Proxy request).foldl WriterOp.apply response

/-- The two draws a call of `SendRequest` can take from `math/rand`:
`Float64` is the value `rand.Float64()` returns and `Int63` is the raw 63-bit
value that `rand.Int63n` accepts and reduces. -/
structure Rand where
  Float64 : ℚ
  Int63 : Nat

/-- Go `rand.Int63n(n)` for `n > 0`: the accepted raw value modulo `n` (for a
power of two the library masks with `n - 1`, which is the same number). -/
def Rand.Int63n (rnd : Rand) (n : Int) : Int :=
  (rnd.Int63 : Int) % n

/-- Observable steps of a dispatch, in program order. -/
inductive Event where
  | int63n (n : Int) (result : Int)
  | println (address : String) (timeout : Int)
  | sleep (timeout : Int)
  | serve (request : Request)
  | stat (record : StatRecord)

/-- State in which the body of `SendRequest` stops: the events so far, the
record behind the `stat_record` pointer, the capture, and the panic that ended
the body if one did. -/
structure BodyResult where
  events : List Event
  stat_record : StatRecord
  response : RedirectResponseWriter
  panicked : Option GoPanic

/-- Result of a call of `SendRequest`. -/
structure Outcome where
  events : List Event
  response : RedirectResponseWriter
  panicked : Option GoPanic

/-- Lines 101 to 105 of `go-http-mirror.go`: the simulated latency. -/
def latencyEvents (rnd : Rand) (settings : SinkSettings) : List Event :=
  let latency := settings.Latency
  if latency > 0 then
    let timeout := rnd.Int63n latency
    [.int63n latency timeout, .println settings.Address timeout, .sleep timeout]
  else []

/-- Lines 106 to 110: the request that goes to the proxy. -/
def prepareRequest (lib : Lib) (mirror : HttpMirror) (request_info : RequestInfo)
    (send_copy : Bool) : Except GoPanic (Option Request) :=
  if send_copy then
    match Copy lib request_info.Request with
    | .error p => .error p
    | .ok request =>
      match ChangeDestination request mirror.Settings.Address with
      | .error p => .error p
      | .ok r => .ok (some r)
  else .ok request_info.Request

/-- Lines 111 to 113: the dispatch, guarded by `request != nil`. -/
def dispatch (mirror : HttpMirror) (response : RedirectResponseWriter) :
    Option Request → List Event × RedirectResponseWriter
  | some r => ([.serve r], mirror.ServeHTTP response r)
  | none => ([], response)

/-- The statements of `SendRequest` after the `defer`. -/
def sendRequestBody (lib : Lib) (rnd : Rand) (mirror : HttpMirror) (request_info : RequestInfo)
    (response : RedirectResponseWriter) (send_copy : Bool) : BodyResult :=
  let stat_record : StatRecord := ⟨request_info.RequestID, false, false, 0, 0, mirror.Settings⟩
  if rnd.Float64 < mirror.Settings.LossProbability then
    ⟨[], stat_record, response, none⟩
  else
    let stat_record := { stat_record with WasSent := true }
    let delay := latencyEvents rnd mirror.Settings
    match prepareRequest lib mirror request_info send_copy with
    | .error p => ⟨delay, stat_record, response, some p⟩
    | .ok request =>
      let served := dispatch mirror response request
      let stat_record := { stat_record with ResponseStatus := served.2.Status }
      match served.2.ContentLength lib with
      | .error p => ⟨delay ++ served.1, stat_record, served.2, some p⟩
      | .ok length =>
        let stat_record := { stat_record with ResponseLength := length }
        ⟨delay ++ served.1, { stat_record with WasReceived := true }, served.2, none⟩

/-- Go `HttpMirror.SendRequest`.  The deferred function sends `stat_record` on
`mirror.Statistics` when the body returns and also when it panics. -/
def HttpMirror.SendRequest (lib : Lib) (rnd : Rand) (mirror : HttpMirror)
    (request_info : RequestInfo) (response : RedirectResponseWriter) (send_copy : Bool) :
    Outcome :=
  let body := sendRequestBody lib rnd mirror request_info response send_copy
  ⟨body.events ++ [.stat body.stat_record], body.response, body.panicked⟩

/-- One iteration of the loop of Go `mirrorWork`, for the message
`src_request` received on `mirror.Requests`. -/
def mirrorWork (lib : Lib) (rnd : Rand) (mirror : HttpMirror) (src_request : RequestInfo) :
    Outcome :=
  mirror.SendRequest lib rnd src_request (CreateRedirectWriter none) true

/-- Go `MirrorService`; the statistics channel is recorded as events. -/
structure MirrorService where
  Destination : HttpMirror
  Mirrors : List HttpMirror

/-- Result of `MirrorService.ServeHTTP`: the messages sent on the `Requests`
channel of each mirror, in order, and the outcome of the primary dispatch. -/
structure ServeResult where
  pushed : List (HttpMirror × RequestInfo)
  primary : Outcome

/-- Go `MirrorService.ServeHTTP`. -/
def MirrorService.ServeHTTP (lib : Lib) (now : Bytes) (rnd : Rand) (service : MirrorService)
    (responseWriter : ResponseWriter) (request : Request) : ServeResult :=
  let request_info : RequestInfo := ⟨some request, GetRequestID lib now request⟩
  let pushed := service.Mirrors.map (fun mirror => (mirror, request_info))
  let response := CreateRedirectWriter (some responseWriter)
  ⟨pushed, service.Destination.SendRequest lib rnd request_info response false⟩

/-- Records sent on the statistics channel, in order. -/
def statRecords : List Event → List StatRecord
  | [] => []
  | .stat record :: es => record :: statRecords es
  | _ :: es => statRecords es

/-- Requests handed to the proxy, in order. -/
def servedRequests : List Event → List Request
  | [] => []
  | .serve request :: es => request :: servedRequests es
  | _ :: es => servedRequests es

/-- Durations passed to `time.Sleep`, in order. -/
def sleeps : List Event → List Int
  | [] => []
  | .sleep timeout :: es => timeout :: sleeps es
  | _ :: es => sleeps es

/-- Calls of `rand.Int63n`, as pairs of bound and result, in order. -/
def delaySamples : List Event → List (Int × Int)
  | [] => []
  | .int63n n result :: es => (n, result) :: delaySamples es
  | _ :: es => delaySamples es

/-! ## Settings (`settings.go`) -/

/-- Go `strings.Split(s, sep)` for a one-character separator, on the
characters of `s`. -/
def splitChars (sep : Char) : List Char → List (List Char)
  | [] => [[]]
  | c :: cs =>
    if c = sep then [] :: splitChars sep cs
    else
      match splitChars sep cs with
      | [] => [[c]]
      | part :: parts => (c :: part) :: parts

/-- Go `strings.Split(settings, ";")`. -/
def stringsSplit (s : String) (sep : Char) : List String :=
  (splitChars sep s.data).map String.mk

/-- Go `parseSinkSettings`.  `log.Fatalf` ends the process: `.error`. -/
def parseSinkSettings (lib : Lib) (settings : String) : Except String SinkSettings :=
  let parts := stringsSplit settings ';'
  if parts.length < 1 ∨ 3 < parts.length then
    .error "Can't parse sink settings"
  else
    let sink_settings : SinkSettings := ⟨parts.getD 0 "", 0, 0⟩
    let withLatency : Except String SinkSettings :=
      if parts.length ≥ 2 ∧ parts.getD 1 "" ≠ "" then
        match lib.ParseDuration (parts.getD 1 "") with
        | .error _ => .error "Can't parse sink latency settings"
        | .ok d => .ok { sink_settings with Latency := d }
      else .ok sink_settings
    match withLatency with
    | .error e => .error e
    | .ok sink_settings =>
      if parts.length ≥ 3 ∧ parts.getD 2 "" ≠ "" then
        match lib.ParseFloat (parts.getD 2 "") 64 with
        | .error _ => .error "Can't parse sink loss probability settings"
        | .ok p => .ok { sink_settings with LossProbability := p }
      else .ok sink_settings

/-- The status a sequence of proxy calls leaves in the capture: the code of
the last `WriteHeader`, or `init` when there is none. -/
def lastStatus : List WriterOp → Int → Int
  | [], init => init
  | .writeHeader code :: ops, _ => lastStatus ops code
  | _ :: ops, init => lastStatus ops init

/-- The gate of `ContentLength`: `Transfer-Encoding` is absent or its first
value is `identity`. -/
def identityOrAbsent (h : Header) : Prop :=
  h "Transfer-Encoding" = none ∨ ∃ rest, h "Transfer-Encoding" = some ("identity" :: rest)

/-! ## Sample run data

Concrete values at which the theorems below are instantiated.  The library
functions of `sampleLib` are stand-ins with the right types: the theorems hold
for every `Lib`, and a sample only shows that their hypotheses can be met. -/

/-- The request `GET /status`. -/
def sampleRequest : Request :=
  { Method := "GET"
    URL := ⟨"", "", "/status", ""⟩
    Header := fun k => if k = "Accept" then some ["*/*"] else none
    Body := []
    Host := "proxy.example:8000" }

/-- The request `GET http://backend.example:9000/status`, in absolute form:
its URL carries a scheme and a host. -/
def absoluteRequest : Request :=
  { Method := "GET"
    URL := ⟨"http", "backend.example:9000", "/status", ""⟩
    Header := fun k => if k = "Accept" then some ["*/*"] else none
    Body := []
    Host := "backend.example:9000" }

/-- The request `GET /status` with its destination changed to
`m.example:8080`. -/
def sampleClone : Request :=
  { sampleRequest with
    URL := { sampleRequest.URL with Host := "m.example:8080" }
    Header := sampleRequest.Header.set "Host" ["m.example:8080"]
    Host := "m.example:8080" }

/-- Value of an unsigned decimal literal, digit by digit. -/
def decimalValue : List Char → Nat → Except String Int
  | [], acc => .ok acc
  | c :: cs, acc =>
    if '0' ≤ c ∧ c ≤ '9' then decimalValue cs (acc * 10 + (c.toNat - 48))
    else .error "invalid syntax"

/-- Stand-in library.  With `failing = true` both dump functions report an
error (an unreadable body) and return no bytes. -/
def sampleLib (failing : Bool) : Lib :=
  { DumpRequestOut := fun r =>
      if failing then ([], some "unreadable body")
      else ((r.Method ++ " " ++ r.URL.Path).data.map Char.toNat ++ r.Body, none)
    DumpRequest := fun r =>
      if failing then .error "unreadable body"
      else .ok ((r.Method ++ " " ++ r.URL.Path).data.map Char.toNat ++ r.Body)
    ReadRequest := fun _ => .ok sampleRequest
    CityHash32 := fun data len => data.foldl (fun h b => (h * 31 + b) % 2 ^ 32) (len + 1)
    ParseInt := fun s _ _ =>
      match s.data with
      | [] => .error "invalid syntax"
      | cs => decimalValue cs 0
    ParseDuration := fun _ => .error "invalid duration"
    ParseFloat := fun _ _ => .error "invalid syntax" }

/-- Bytes of a sample `time.Now().String()`, shortened to the year. -/
def sampleNow : Bytes := [50, 48, 49, 53]

/-- A mirror at `m.example:8080` whose destination answers `200` with the
body `ok`. -/
def sampleMirror (latency : Int) (loss : ℚ) : HttpMirror :=
  { Proxy := fun _ =>
      [.setHeader "Content-Length" ["2"], .writeHeader 200, .write [111, 107]]
    Settings := ⟨"m.example:8080", latency, loss⟩ }

/-- A mirror at `m.example:8080` that cannot be reached: as
`httputil.ReverseProxy` does on a transport error, the proxy only writes the
status `502`. -/
def unreachableMirror : HttpMirror :=
  { Proxy := fun _ => [.writeHeader 502]
    Settings := ⟨"m.example:8080", 0, 0⟩ }

/-- A capture with the headers `Transfer-Encoding: gzip` and
`Content-Length: 5`. -/
def gzipWriter : RedirectResponseWriter :=
  ((CreateRedirectWriter none).setHeader "Transfer-Encoding" ["gzip"]).setHeader
    "Content-Length" ["5"]

/-- A capture with the single header `Content-Length: 2`. -/
def lengthWriter : RedirectResponseWriter :=
  (CreateRedirectWriter none).setHeader "Content-Length" ["2"]

/-- A service with two mirrors (loss 0 and 1/2) and a primary destination. -/
def sampleService : MirrorService :=
  { Destination :=
      { Proxy := fun _ =>
          [.setHeader "Content-Length" ["2"], .writeHeader 200, .write [111, 107]]
        Settings := ⟨"primary.example:9000", 0, 0⟩ }
    Mirrors := [sampleMirror 0 0, sampleMirror 0 (1 / 2)] }

/-! ## Lemmas on event lists -/

theorem statRecords_append (a b : List Event) :
    statRecords (a ++ b) = statRecords a ++ statRecords b := by
  induction a with
  | nil => rfl
  | cons e es ih => cases e <;> simp [statRecords, ih]

theorem servedRequests_append (a b : List Event) :
    servedRequests (a ++ b) = servedRequests a ++ servedRequests b := by
  induction a with
  | nil => rfl
  | cons e es ih => cases e <;> simp [servedRequests, ih]

theorem sleeps_append (a b : List Event) : sleeps (a ++ b) = sleeps a ++ sleeps b := by
  induction a with
  | nil => rfl
  | cons e es ih => cases e <;> simp [sleeps, ih]

theorem delaySamples_append (a b : List Event) :
    delaySamples (a ++ b) = delaySamples a ++ delaySamples b := by
  induction a with
  | nil => rfl
  | cons e es ih => cases e <;> simp [delaySamples, ih]

theorem statRecords_latencyEvents (rnd : Rand) (settings : SinkSettings) :
    statRecords (latencyEvents rnd settings) = [] := by
  simp only [latencyEvents]
  split_ifs <;> simp [statRecords]

theorem servedRequests_latencyEvents (rnd : Rand) (settings : SinkSettings) :
    servedRequests (latencyEvents rnd settings) = [] := by
  simp only [latencyEvents]
  split_ifs <;> simp [servedRequests]

theorem statRecords_dispatch (mirror : HttpMirror) (response : RedirectResponseWriter)
    (request : Option Request) : statRecords (dispatch mirror response request).1 = [] := by
  cases request <;> rfl

/-! ## The paths through `SendRequest` -/

/-- Path 1, loss: the body returns at once. -/
theorem sendRequestBody_lost (lib : Lib) (rnd : Rand) (mirror : HttpMirror)
    (request_info : RequestInfo) (response : RedirectResponseWriter) (send_copy : Bool)
    (hlost : rnd.Float64 < mirror.Settings.LossProbability) :
    sendRequestBody lib rnd mirror request_info response send_copy =
      ⟨[], ⟨request_info.RequestID, false, false, 0, 0, mirror.Settings⟩, response, none⟩ := by
  simp [sendRequestBody, hlost]

/-- Path 2: preparing the request panics. -/
theorem sendRequestBody_prepare_panic (lib : Lib) (rnd : Rand) (mirror : HttpMirror)
    (request_info : RequestInfo) (response : RedirectResponseWriter) (send_copy : Bool)
    (p : GoPanic) (hsent : ¬ rnd.Float64 < mirror.Settings.LossProbability)
    (hprep : prepareRequest lib mirror request_info send_copy = .error p) :
    sendRequestBody lib rnd mirror request_info response send_copy =
      ⟨latencyEvents rnd mirror.Settings,
        ⟨request_info.RequestID, true, false, 0, 0, mirror.Settings⟩, response, some p⟩ := by
  simp [sendRequestBody, hsent, hprep]

/-- Path 3: `ContentLength` panics after the dispatch. -/
theorem sendRequestBody_length_panic (lib : Lib) (rnd : Rand) (mirror : HttpMirror)
    (request_info : RequestInfo) (response : RedirectResponseWriter) (send_copy : Bool)
    (request : Option Request) (p : GoPanic)
    (hsent : ¬ rnd.Float64 < mirror.Settings.LossProbability)
    (hprep : prepareRequest lib mirror request_info send_copy = .ok request)
    (hlen : (dispatch mirror response request).2.ContentLength lib = .error p) :
    sendRequestBody lib rnd mirror request_info response send_copy =
      ⟨latencyEvents rnd mirror.Settings ++ (dispatch mirror response request).1,
        ⟨request_info.RequestID, true, false, 0, (dispatch mirror response request).2.Status,
          mirror.Settings⟩,
        (dispatch mirror response request).2, some p⟩ := by
  simp [sendRequestBody, hsent, hprep, hlen]

/-- Path 4: the body runs to its end. -/
theorem sendRequestBody_complete (lib : Lib) (rnd : Rand) (mirror : HttpMirror)
    (request_info : RequestInfo) (response : RedirectResponseWriter) (send_copy : Bool)
    (request : Option Request) (length : Int)
    (hsent : ¬ rnd.Float64 < mirror.Settings.LossProbability)
    (hprep : prepareRequest lib mirror request_info send_copy = .ok request)
    (hlen : (dispatch mirror response request).2.ContentLength lib = .ok length) :
    sendRequestBody lib rnd mirror request_info response send_copy =
      ⟨latencyEvents rnd mirror.Settings ++ (dispatch mirror response request).1,
        ⟨request_info.RequestID, true, true, length,
          (dispatch mirror response request).2.Status, mirror.Settings⟩,
        (dispatch mirror response request).2, none⟩ := by
  simp [sendRequestBody, hsent, hprep, hlen]

/-- The body of `SendRequest` never sends on the statistics channel. -/
theorem statRecords_sendRequestBody (lib : Lib) (rnd : Rand) (mirror : HttpMirror)
    (request_info : RequestInfo) (response : RedirectResponseWriter) (send_copy : Bool) :
    statRecords (sendRequestBody lib rnd mirror request_info response send_copy).events = [] := by
  by_cases hlost : rnd.Float64 < mirror.Settings.LossProbability
  · rw [sendRequestBody_lost _ _ _ _ _ _ hlost]; rfl
  · rcases hprep : prepareRequest lib mirror request_info send_copy with p | request
    · rw [sendRequestBody_prepare_panic _ _ _ _ _ _ p hlost hprep]
      exact statRecords_latencyEvents rnd mirror.Settings
    · rcases hlen : (dispatch mirror response request).2.ContentLength lib with p | length
      · rw [sendRequestBody_length_panic _ _ _ _ _ _ request p hlost hprep hlen]
        simp [statRecords_append, statRecords_latencyEvents, statRecords_dispatch]
      · rw [sendRequestBody_complete _ _ _ _ _ _ request length hlost hprep hlen]
        simp [statRecords_append, statRecords_latencyEvents, statRecords_dispatch]

/-- The only record a call of `SendRequest` sends is the one behind
`stat_record`, sent by the deferred function. -/
theorem statRecords_sendRequest (lib : Lib) (rnd : Rand) (mirror : HttpMirror)
    (request_info : RequestInfo) (response : RedirectResponseWriter) (send_copy : Bool) :
    statRecords (mirror.SendRequest lib rnd request_info response send_copy).events =
      [(sendRequestBody lib rnd mirror request_info response send_copy).stat_record] := by
  simp [HttpMirror.SendRequest, statRecords_append, statRecords_sendRequestBody, statRecords]

/-- The identifier and the settings of the record are fixed when it is built. -/
theorem stat_record_identity (lib : Lib) (rnd : Rand) (mirror : HttpMirror)
    (request_info : RequestInfo) (response : RedirectResponseWriter) (send_copy : Bool) :
    (sendRequestBody lib rnd mirror request_info response send_copy).stat_record.RequestID =
        request_info.RequestID ∧
      (sendRequestBody lib rnd mirror request_info response send_copy).stat_record.Settings =
        mirror.Settings := by
  by_cases hlost : rnd.Float64 < mirror.Settings.LossProbability
  · rw [sendRequestBody_lost _ _ _ _ _ _ hlost]; exact ⟨rfl, rfl⟩
  · rcases hprep : prepareRequest lib mirror request_info send_copy with p | request
    · rw [sendRequestBody_prepare_panic _ _ _ _ _ _ p hlost hprep]; exact ⟨rfl, rfl⟩
    · rcases hlen : (dispatch mirror response request).2.ContentLength lib with p | length
      · rw [sendRequestBody_length_panic _ _ _ _ _ _ request p hlost hprep hlen]
        exact ⟨rfl, rfl⟩
      · rw [sendRequestBody_complete _ _ _ _ _ _ request length hlost hprep hlen]
        exact ⟨rfl, rfl⟩

/-- Events of the body: none on loss, otherwise the simulated latency followed
by the dispatch of at most one request. -/
theorem sendRequestBody_events (lib : Lib) (rnd : Rand) (mirror : HttpMirror)
    (request_info : RequestInfo) (response : RedirectResponseWriter) (send_copy : Bool) :
    (rnd.Float64 < mirror.Settings.LossProbability →
        (sendRequestBody lib rnd mirror request_info response send_copy).events = []) ∧
      (¬ rnd.Float64 < mirror.Settings.LossProbability →
        ∃ request, (sendRequestBody lib rnd mirror request_info response send_copy).events =
          latencyEvents rnd mirror.Settings ++ (dispatch mirror response request).1) := by
  refine ⟨fun hlost => ?_, fun hlost => ?_⟩
  · rw [sendRequestBody_lost _ _ _ _ _ _ hlost]
  · rcases hprep : prepareRequest lib mirror request_info send_copy with p | request
    · rw [sendRequestBody_prepare_panic _ _ _ _ _ _ p hlost hprep]
      exact ⟨none, by simp [dispatch]⟩
    · rcases hlen : (dispatch mirror response request).2.ContentLength lib with p | length
      · rw [sendRequestBody_length_panic _ _ _ _ _ _ request p hlost hprep hlen]
        exact ⟨request, rfl⟩
      · rw [sendRequestBody_complete _ _ _ _ _ _ request length hlost hprep hlen]
        exact ⟨request, rfl⟩

/-- Once the loss gate is passed the record has `WasSent = true`. -/
theorem stat_record_wasSent (lib : Lib) (rnd : Rand) (mirror : HttpMirror)
    (request_info : RequestInfo) (response : RedirectResponseWriter) (send_copy : Bool)
    (hsent : ¬ rnd.Float64 < mirror.Settings.LossProbability) :
    (sendRequestBody lib rnd mirror request_info response send_copy).stat_record.WasSent =
      true := by
  rcases hprep : prepareRequest lib mirror request_info send_copy with p | request
  · rw [sendRequestBody_prepare_panic _ _ _ _ _ _ p hsent hprep]
  · rcases hlen : (dispatch mirror response request).2.ContentLength lib with p | length
    · rw [sendRequestBody_length_panic _ _ _ _ _ _ request p hsent hprep hlen]
    · rw [sendRequestBody_complete _ _ _ _ _ _ request length hsent hprep hlen]

/-- A lost request: the record keeps its initial fields and nothing is
dispatched. -/
theorem sendRequest_lost (lib : Lib) (rnd : Rand) (mirror : HttpMirror)
    (request_info : RequestInfo) (response : RedirectResponseWriter) (send_copy : Bool)
    (hlost : rnd.Float64 < mirror.Settings.LossProbability) :
    statRecords (mirror.SendRequest lib rnd request_info response send_copy).events =
        [⟨request_info.RequestID, false, false, 0, 0, mirror.Settings⟩] ∧
      servedRequests (mirror.SendRequest lib rnd request_info response send_copy).events =
        [] := by
  simp [HttpMirror.SendRequest, sendRequestBody_lost _ _ _ _ _ _ hlost, statRecords,
    servedRequests]

theorem sleeps_dispatch (mirror : HttpMirror) (response : RedirectResponseWriter)
    (request : Option Request) : sleeps (dispatch mirror response request).1 = [] := by
  cases request <;> rfl

theorem delaySamples_dispatch (mirror : HttpMirror) (response : RedirectResponseWriter)
    (request : Option Request) : delaySamples (dispatch mirror response request).1 = [] := by
  cases request <;> rfl

/-! ## C1: one record per destination, one identifier per request -/

/-- C1.  `MirrorService.ServeHTTP` sends one message to each configured
mirror, in order; whatever the random draws, the worker that receives such a
message and the primary dispatch each send exactly one record on the
statistics channel, on every path of `SendRequest` (loss, nil request,
completed dispatch, and also a panic, through the deferred send); every one of
these records carries the identifier `GetRequestID` computed for the request
and the settings of its own destination. -/
theorem serveHTTP_one_record_per_destination (lib : Lib) (now : Bytes) (rnd : Rand)
    (service : MirrorService) (responseWriter : ResponseWriter) (request : Request) :
    (service.ServeHTTP lib now rnd responseWriter request).pushed.map Prod.fst =
        service.Mirrors ∧
      (∀ message ∈ (service.ServeHTTP lib now rnd responseWriter request).pushed,
        ∀ workerRnd : Rand, ∃ record,
          statRecords (mirrorWork lib workerRnd message.1 message.2).events = [record] ∧
            record.RequestID = GetRequestID lib now request ∧
            record.Settings = message.1.Settings) ∧
      ∃ record,
        statRecords (service.ServeHTTP lib now rnd responseWriter request).primary.events =
            [record] ∧
          record.RequestID = GetRequestID lib now request ∧
          record.Settings = service.Destination.Settings := by
  refine ⟨?_, ?_, ?_⟩
  · simp [MirrorService.ServeHTTP, Function.comp_def]
  · intro message hmem workerRnd
    simp only [MirrorService.ServeHTTP, List.mem_map] at hmem
    obtain ⟨mirror, _, rfl⟩ := hmem
    refine ⟨_, statRecords_sendRequest lib workerRnd mirror _ _ true, ?_, ?_⟩
    · exact (stat_record_identity lib workerRnd mirror _ _ true).1
    · exact (stat_record_identity lib workerRnd mirror _ _ true).2
  · refine ⟨_, statRecords_sendRequest lib rnd service.Destination _ _ false, ?_, ?_⟩
    · exact (stat_record_identity lib rnd service.Destination _ _ false).1
    · exact (stat_record_identity lib rnd service.Destination _ _ false).2

/-- Instance of `serveHTTP_one_record_per_destination`: `GET /status` at a
service with two mirrors.  The worker of the second mirror, which receives the
message pushed for it, sends one record with the identifier of the request
and the settings of that mirror. -/
theorem serveHTTP_one_record_per_destination_witness :
    (sampleMirror 0 (1 / 2), (⟨some sampleRequest,
          GetRequestID (sampleLib false) sampleNow sampleRequest⟩ : RequestInfo)).1 ∈
        sampleService.Mirrors ∧
      ∃ record,
        statRecords (mirrorWork (sampleLib false) ⟨1 / 4, 0⟩ (sampleMirror 0 (1 / 2))
            ⟨some sampleRequest, GetRequestID (sampleLib false) sampleNow sampleRequest⟩).events =
            [record] ∧
          record.RequestID = GetRequestID (sampleLib false) sampleNow sampleRequest ∧
          record.Settings = (sampleMirror 0 (1 / 2)).Settings :=
  ⟨by simp [sampleService],
    (serveHTTP_one_record_per_destination (sampleLib false) sampleNow ⟨0, 0⟩ sampleService
      ⟨fun _ => none, [], []⟩ sampleRequest).2.1
      (sampleMirror 0 (1 / 2), ⟨some sampleRequest,
        GetRequestID (sampleLib false) sampleNow sampleRequest⟩)
      (List.mem_map.mpr ⟨sampleMirror 0 (1 / 2), by simp [sampleService], rfl⟩) ⟨1 / 4, 0⟩⟩

/-! ## C2 and C3: the request identifier -/

/-- C2.  What the code does where the claim expects the hash: when
`DumpRequestOut` reports no error, `GetRequestID` returns 0 and never calls
the hash function (the test `err != nil` selects the failed dumps). -/
theorem getRequestID_zero_on_success (lib : Lib) (now : Bytes) (request : Request)
    (hdump : (lib.DumpRequestOut request).2 = none) : GetRequestID lib now request = 0 := by
  simp [GetRequestID, hdump]

/-- Instance of `getRequestID_zero_on_success` at the absolute-form request
`GET http://backend.example:9000/status`: the dump succeeds and the identifier
is 0. -/
theorem getRequestID_zero_on_success_witness :
    ((sampleLib false).DumpRequestOut absoluteRequest).2 = none ∧
      GetRequestID (sampleLib false) sampleNow absoluteRequest = 0 :=
  ⟨rfl, getRequestID_zero_on_success (sampleLib false) sampleNow absoluteRequest rfl⟩

/-- With the stand-in hash, the identifier of the absolute-form request
differs from the hash of its dump followed by the timestamp. -/
theorem getRequestID_success_differs :
    GetRequestID (sampleLib false) sampleNow absoluteRequest ≠
      (sampleLib false).CityHash32
        (((sampleLib false).DumpRequestOut absoluteRequest).1 ++ sampleNow)
        ((((sampleLib false).DumpRequestOut absoluteRequest).1 ++ sampleNow).length % 2 ^ 32) := by
  decide

/-- C3.  What the code does where the claim expects the zero token: when
`DumpRequestOut` reports an error, `GetRequestID` returns the hash of the
returned bytes followed by the timestamp. -/
theorem getRequestID_hash_on_failure (lib : Lib) (now : Bytes) (request : Request)
    (hdump : (lib.DumpRequestOut request).2 ≠ none) :
    GetRequestID lib now request =
      lib.CityHash32 ((lib.DumpRequestOut request).1 ++ now)
        (((lib.DumpRequestOut request).1 ++ now).length % 2 ^ 32) := by
  simp [GetRequestID, hdump]

/-- Instance of `getRequestID_hash_on_failure` at a request whose dump fails. -/
theorem getRequestID_hash_on_failure_witness :
    ((sampleLib true).DumpRequestOut sampleRequest).2 ≠ none ∧
      GetRequestID (sampleLib true) sampleNow sampleRequest =
        (sampleLib true).CityHash32 (((sampleLib true).DumpRequestOut sampleRequest).1 ++ sampleNow)
          ((((sampleLib true).DumpRequestOut sampleRequest).1 ++ sampleNow).length % 2 ^ 32) :=
  ⟨by simp [sampleLib],
    getRequestID_hash_on_failure (sampleLib true) sampleNow sampleRequest (by simp [sampleLib])⟩

/-- With the stand-in hash the identifier of the failed dump is `6154855`:
the zero token is not returned. -/
theorem getRequestID_failure_nonzero :
    GetRequestID (sampleLib true) sampleNow sampleRequest = 6154855 := by
  decide

/-! ## C4: loss injection -/

/-- C4.  For a sample `r` of `rand.Float64()` in `[0,1)`: if
`r < LossProbability` the one record sent has `WasSent = false`,
`ResponseStatus = 0`, `ResponseLength = 0` and nothing is dispatched;
otherwise the record has `WasSent = true`.  Hence with `LossProbability = 1`
the record has `WasSent = false` and `ResponseStatus = 0`, and with
`LossProbability = 0` it has `WasSent = true`. -/
theorem sendRequest_loss_gate (lib : Lib) (rnd : Rand) (mirror : HttpMirror)
    (request_info : RequestInfo) (response : RedirectResponseWriter) (send_copy : Bool)
    (h0 : 0 ≤ rnd.Float64) (h1 : rnd.Float64 < 1) :
    (rnd.Float64 < mirror.Settings.LossProbability →
        statRecords (mirror.SendRequest lib rnd request_info response send_copy).events =
            [⟨request_info.RequestID, false, false, 0, 0, mirror.Settings⟩] ∧
          servedRequests (mirror.SendRequest lib rnd request_info response send_copy).events =
            []) ∧
      (¬ rnd.Float64 < mirror.Settings.LossProbability →
        ∃ record,
          statRecords (mirror.SendRequest lib rnd request_info response send_copy).events =
              [record] ∧
            record.WasSent = true) ∧
      (mirror.Settings.LossProbability = 1 →
        ∃ record,
          statRecords (mirror.SendRequest lib rnd request_info response send_copy).events =
              [record] ∧
            record.WasSent = false ∧ record.ResponseStatus = 0) ∧
      (mirror.Settings.LossProbability = 0 →
        ∃ record,
          statRecords (mirror.SendRequest lib rnd request_info response send_copy).events =
              [record] ∧
            record.WasSent = true) := by
  refine ⟨sendRequest_lost lib rnd mirror request_info response send_copy, fun hsent => ?_,
    fun hone => ?_, fun hzero => ?_⟩
  · exact ⟨_, statRecords_sendRequest lib rnd mirror request_info response send_copy,
      stat_record_wasSent lib rnd mirror request_info response send_copy hsent⟩
  · have hlost : rnd.Float64 < mirror.Settings.LossProbability := by rw [hone]; exact h1
    exact ⟨_, (sendRequest_lost lib rnd mirror request_info response send_copy hlost).1,
      rfl, rfl⟩
  · have hsent : ¬ rnd.Float64 < mirror.Settings.LossProbability := by
      rw [hzero]; exact not_lt.mpr h0
    exact ⟨_, statRecords_sendRequest lib rnd mirror request_info response send_copy,
      stat_record_wasSent lib rnd mirror request_info response send_copy hsent⟩

/-- Instance of `sendRequest_loss_gate`: the sample `1/2` at a mirror with
`LossProbability = 1`. -/
theorem sendRequest_loss_gate_witness :
    (0 : ℚ) ≤ (⟨1 / 2, 0⟩ : Rand).Float64 ∧ (⟨1 / 2, 0⟩ : Rand).Float64 < 1 ∧
      ∃ record,
        statRecords ((sampleMirror 0 1).SendRequest (sampleLib false) ⟨1 / 2, 0⟩
            ⟨some sampleRequest, 7⟩ (CreateRedirectWriter none) true).events = [record] ∧
          record.WasSent = false ∧ record.ResponseStatus = 0 :=
  ⟨by norm_num, by norm_num,
    (sendRequest_loss_gate (sampleLib false) ⟨1 / 2, 0⟩ (sampleMirror 0 1)
      ⟨some sampleRequest, 7⟩ (CreateRedirectWriter none) true (by norm_num)
      (by norm_num)).2.2.1 rfl⟩

/-! ## C5: latency injection -/

/-- C5.  When `Latency ≤ 0`, `SendRequest` calls neither `rand.Int63n` nor
`time.Sleep`.  When `Latency = L > 0` and the request is not lost, the events
of the call start with one draw `d = rand.Int63n(L)`, which satisfies
`0 ≤ d < L`, and one sleep of `d`; no other draw or sleep follows, so the
sleep precedes the dispatch. -/
theorem sendRequest_latency (lib : Lib) (rnd : Rand) (mirror : HttpMirror)
    (request_info : RequestInfo) (response : RedirectResponseWriter) (send_copy : Bool) :
    (mirror.Settings.Latency ≤ 0 →
        delaySamples (mirror.SendRequest lib rnd request_info response send_copy).events = [] ∧
          sleeps (mirror.SendRequest lib rnd request_info response send_copy).events = []) ∧
      (0 < mirror.Settings.Latency → ¬ rnd.Float64 < mirror.Settings.LossProbability →
        ∃ d rest, 0 ≤ d ∧ d < mirror.Settings.Latency ∧
          (mirror.SendRequest lib rnd request_info response send_copy).events =
            [Event.int63n mirror.Settings.Latency d, Event.println mirror.Settings.Address d,
              Event.sleep d] ++ rest ∧
          delaySamples rest = [] ∧ sleeps rest = []) := by
  refine ⟨fun hle => ?_, fun hpos hsent => ?_⟩
  · have hnot : ¬ mirror.Settings.Latency > 0 := not_lt.mpr hle
    have hlat : latencyEvents rnd mirror.Settings = [] := by simp [latencyEvents, hnot]
    by_cases hlost : rnd.Float64 < mirror.Settings.LossProbability
    · simp [HttpMirror.SendRequest, sendRequestBody_lost _ _ _ _ _ _ hlost, delaySamples, sleeps]
    · obtain ⟨request, hev⟩ :=
        (sendRequestBody_events lib rnd mirror request_info response send_copy).2 hlost
      simp [HttpMirror.SendRequest, hev, hlat, delaySamples_append, sleeps_append,
        delaySamples_dispatch, sleeps_dispatch, delaySamples, sleeps]
  · obtain ⟨request, hev⟩ :=
      (sendRequestBody_events lib rnd mirror request_info response send_copy).2 hsent
    have hlat : latencyEvents rnd mirror.Settings =
        [Event.int63n mirror.Settings.Latency (rnd.Int63n mirror.Settings.Latency),
          Event.println mirror.Settings.Address (rnd.Int63n mirror.Settings.Latency),
          Event.sleep (rnd.Int63n mirror.Settings.Latency)] := by
      simp [latencyEvents, hpos]
    refine ⟨rnd.Int63n mirror.Settings.Latency,
      (dispatch mirror response request).1 ++
        [Event.stat (sendRequestBody lib rnd mirror request_info response send_copy).stat_record],
      Int.emod_nonneg _ (ne_of_gt hpos), Int.emod_lt_of_pos _ hpos, ?_, ?_, ?_⟩
    · simp [HttpMirror.SendRequest, hev, hlat]
    · simp [delaySamples_append, delaySamples_dispatch, delaySamples]
    · simp [sleeps_append, sleeps_dispatch, sleeps]

/-- Instance of `sendRequest_latency`: a mirror with a latency bound of 100 ns
and no loss. -/
theorem sendRequest_latency_witness :
    (0 : Int) < (sampleMirror 100 0).Settings.Latency ∧
      ¬ (⟨0, 250⟩ : Rand).Float64 < (sampleMirror 100 0).Settings.LossProbability ∧
      ∃ d rest, 0 ≤ d ∧ d < (sampleMirror 100 0).Settings.Latency ∧
        ((sampleMirror 100 0).SendRequest (sampleLib false) ⟨0, 250⟩ ⟨some sampleRequest, 7⟩
            (CreateRedirectWriter none) true).events =
          [Event.int63n (sampleMirror 100 0).Settings.Latency d,
            Event.println (sampleMirror 100 0).Settings.Address d, Event.sleep d] ++ rest ∧
        delaySamples rest = [] ∧ sleeps rest = [] :=
  ⟨by simp [sampleMirror], by simp [sampleMirror],
    (sendRequest_latency (sampleLib false) ⟨0, 250⟩ (sampleMirror 100 0)
      ⟨some sampleRequest, 7⟩ (CreateRedirectWriter none) true).2 (by simp [sampleMirror])
      (by simp [sampleMirror])⟩

/-! ## C6: a clone that fails -/

/-- C6.  What the code does where the claim expects a skipped dispatch: when a
request passes the loss gate in a mirror worker and `Copy` returns nil,
`ChangeDestination` dereferences the nil clone before the test
`request != nil` is reached, so the call ends in a panic; nothing is
dispatched, and the one record, sent by the deferred function, has
`WasSent = true`, `WasReceived = false`, `ResponseStatus = 0` and
`ResponseLength = 0`. -/
theorem mirrorWork_clone_failure_panics (lib : Lib) (rnd : Rand) (mirror : HttpMirror)
    (src_request : RequestInfo)
    (hsent : ¬ rnd.Float64 < mirror.Settings.LossProbability)
    (hcopy : Copy lib src_request.Request = .ok none) :
    (mirrorWork lib rnd mirror src_request).panicked = some GoPanic.nilDereference ∧
      servedRequests (mirrorWork lib rnd mirror src_request).events = [] ∧
      statRecords (mirrorWork lib rnd mirror src_request).events =
        [⟨src_request.RequestID, true, false, 0, 0, mirror.Settings⟩] := by
  have hprep : prepareRequest lib mirror src_request true = .error GoPanic.nilDereference := by
    simp [prepareRequest, hcopy, ChangeDestination]
  have hbody := sendRequestBody_prepare_panic lib rnd mirror src_request
    (CreateRedirectWriter none) true _ hsent hprep
  refine ⟨?_, ?_, ?_⟩
  · simp [mirrorWork, HttpMirror.SendRequest, hbody]
  · simp [mirrorWork, HttpMirror.SendRequest, hbody, servedRequests_append,
      servedRequests_latencyEvents, servedRequests]
  · rw [mirrorWork, statRecords_sendRequest, hbody]

/-- Instance of `mirrorWork_clone_failure_panics`: a mirror without loss
receives `GET /status` and `Copy` returns nil because the dump fails. -/
theorem mirrorWork_clone_failure_panics_witness :
    (¬ (⟨0, 0⟩ : Rand).Float64 < (sampleMirror 0 0).Settings.LossProbability) ∧
      Copy (sampleLib true) (⟨some sampleRequest, 7⟩ : RequestInfo).Request = .ok none ∧
      (mirrorWork (sampleLib true) ⟨0, 0⟩ (sampleMirror 0 0)
          ⟨some sampleRequest, 7⟩).panicked = some GoPanic.nilDereference ∧
      servedRequests (mirrorWork (sampleLib true) ⟨0, 0⟩ (sampleMirror 0 0)
          ⟨some sampleRequest, 7⟩).events = [] ∧
      statRecords (mirrorWork (sampleLib true) ⟨0, 0⟩ (sampleMirror 0 0)
          ⟨some sampleRequest, 7⟩).events =
        [⟨7, true, false, 0, 0, (sampleMirror 0 0).Settings⟩] :=
  ⟨by simp [sampleMirror], rfl,
    mirrorWork_clone_failure_panics (sampleLib true) ⟨0, 0⟩ (sampleMirror 0 0)
      ⟨some sampleRequest, 7⟩ (by simp [sampleMirror]) rfl⟩

/-- The sibling path.  Without a copy (`send_copy = false`) a nil request is
skipped by the test `request != nil`: the call does not panic and dispatches
nothing. -/
theorem sendRequest_nil_request_skipped (lib : Lib) (rnd : Rand) (mirror : HttpMirror)
    (id : Nat) :
    (mirror.SendRequest lib rnd ⟨none, id⟩ (CreateRedirectWriter none) false).panicked =
        none ∧
      servedRequests
        (mirror.SendRequest lib rnd ⟨none, id⟩ (CreateRedirectWriter none) false).events =
        [] := by
  by_cases hlost : rnd.Float64 < mirror.Settings.LossProbability
  · simp [HttpMirror.SendRequest, sendRequestBody_lost _ _ _ _ _ _ hlost, servedRequests]
  · have hprep : prepareRequest lib mirror ⟨none, id⟩ false = .ok none := by
      simp [prepareRequest]
    have hlen : (dispatch mirror (CreateRedirectWriter none) none).2.ContentLength lib =
        .ok 0 := by
      simp [dispatch, RedirectResponseWriter.ContentLength, RedirectResponseWriter.Header,
        CreateRedirectWriter, contentLengthValue]
    simp [HttpMirror.SendRequest,
      sendRequestBody_complete _ _ _ _ _ _ none 0 hlost hprep hlen, servedRequests_append,
      servedRequests_latencyEvents, servedRequests, dispatch]

/-! ## C7: the destination of a clone -/

/-- C7.  `ChangeDestination` on a request and an address `a` yields the
request with `URL.Host = a`, `Host = a` and the `Host` header equal to `[a]`;
the method, the other URL fields (the path among them), every other header and
the body are those of the argument.  A mirror worker that passes the loss gate
and obtains a clone from `Copy` dispatches exactly that clone, changed by
`ChangeDestination` with the address of the mirror. -/
theorem changeDestination_frame (request : Request) (a : String) :
    (∃ r, ChangeDestination (some request) a = .ok r ∧
        r.URL.Host = a ∧ r.Host = a ∧ r.Header "Host" = some [a] ∧
        r.Method = request.Method ∧ r.URL.Path = request.URL.Path ∧
        r.URL.Scheme = request.URL.Scheme ∧ r.URL.RawQuery = request.URL.RawQuery ∧
        (∀ key, key ≠ "Host" → r.Header key = request.Header key) ∧
        r.Body = request.Body) ∧
      ∀ (lib : Lib) (rnd : Rand) (mirror : HttpMirror) (src_request : RequestInfo),
        ¬ rnd.Float64 < mirror.Settings.LossProbability →
        Copy lib src_request.Request = .ok (some request) →
        ∃ r, ChangeDestination (some request) mirror.Settings.Address = .ok r ∧
          servedRequests (mirrorWork lib rnd mirror src_request).events = [r] := by
  refine ⟨⟨_, rfl, rfl, rfl, ?_, rfl, rfl, rfl, rfl, ?_, rfl⟩, ?_⟩
  · simp [Header.set]
  · intro key hkey
    simp [Header.set, hkey]
  · intro lib rnd mirror src_request hsent hcopy
    refine ⟨_, rfl, ?_⟩
    have hprep : prepareRequest lib mirror src_request true =
        .ok (some { request with
          URL := { request.URL with Host := mirror.Settings.Address }
          Header := request.Header.set "Host" [mirror.Settings.Address]
          Host := mirror.Settings.Address }) := by
      simp [prepareRequest, hcopy, ChangeDestination]
    obtain ⟨request2, hev⟩ :=
      (sendRequestBody_events lib rnd mirror src_request (CreateRedirectWriter none) true).2
        hsent
    rcases hlen : (dispatch mirror (CreateRedirectWriter none) (some { request with
          URL := { request.URL with Host := mirror.Settings.Address }
          Header := request.Header.set "Host" [mirror.Settings.Address]
          Host := mirror.Settings.Address })).2.ContentLength lib with p | length
    · simp [mirrorWork, HttpMirror.SendRequest,
        sendRequestBody_length_panic _ _ _ _ _ _ _ p hsent hprep hlen, servedRequests_append,
        servedRequests_latencyEvents, servedRequests, dispatch, ChangeDestination]
    · simp [mirrorWork, HttpMirror.SendRequest,
        sendRequestBody_complete _ _ _ _ _ _ _ length hsent hprep hlen, servedRequests_append,
        servedRequests_latencyEvents, servedRequests, dispatch, ChangeDestination]

/-- Instance of `changeDestination_frame`: the clone of `GET /status` sent to
the mirror at `m.example:8080`. -/
theorem changeDestination_frame_witness :
    (¬ (⟨0, 0⟩ : Rand).Float64 < (sampleMirror 0 0).Settings.LossProbability) ∧
      Copy (sampleLib false) (⟨some sampleRequest, 7⟩ : RequestInfo).Request =
        .ok (some sampleRequest) ∧
      ∃ r, ChangeDestination (some sampleRequest) (sampleMirror 0 0).Settings.Address = .ok r ∧
        servedRequests (mirrorWork (sampleLib false) ⟨0, 0⟩ (sampleMirror 0 0)
          ⟨some sampleRequest, 7⟩).events = [r] :=
  ⟨by simp [sampleMirror], rfl,
    (changeDestination_frame sampleRequest "m.example:8080").2 (sampleLib false) ⟨0, 0⟩
      (sampleMirror 0 0) ⟨some sampleRequest, 7⟩ (by simp [sampleMirror]) rfl⟩

/-! ## C8: what the record says about the dispatch -/

/-- The capture keeps the code of the last `WriteHeader`. -/
theorem serveHTTP_status (mirror : HttpMirror) (response : RedirectResponseWriter)
    (request : Request) :
    (mirror.ServeHTTP response request).Status =
      lastStatus (mirror.Proxy request) response.Status := by
  unfold HttpMirror.ServeHTTP
  generalize mirror.Proxy request = ops
  induction ops generalizing response with
  | nil => rfl
  | cons op ops ih =>
    rw [List.foldl_cons, ih]
    cases op with
    | setHeader key value =>
      simp only [WriterOp.apply, RedirectResponseWriter.setHeader, lastStatus]
      cases response.Writer <;> rfl
    | writeHeader code =>
      simp only [WriterOp.apply, RedirectResponseWriter.WriteHeader, lastStatus]
      cases response.Writer <;> rfl
    | write data =>
      simp only [WriterOp.apply, RedirectResponseWriter.Write, lastStatus]
      cases response.Writer <;> rfl

/-- C8, counterexample.  A mirror that cannot be reached: the proxy only
writes the status 502, and the record sent has `WasReceived = true` and
`ResponseStatus = 502`. -/
theorem unreachable_mirror_counterexample :
    statRecords (mirrorWork (sampleLib false) ⟨0, 0⟩ unreachableMirror
        ⟨some sampleRequest, 7⟩).events =
      [⟨7, true, true, 0, 502, ⟨"m.example:8080", 0, 0⟩⟩] := by
  rw [mirrorWork, statRecords_sendRequest]
  simp [sendRequestBody, unreachableMirror, prepareRequest, Copy, sampleLib, ChangeDestination,
    dispatch, HttpMirror.ServeHTTP, WriterOp.apply, RedirectResponseWriter.WriteHeader,
    RedirectResponseWriter.ContentLength, RedirectResponseWriter.Header, CreateRedirectWriter,
    contentLengthValue]

/-- C8, amended.  The one record of a call of `SendRequest` has
`WasReceived = true` exactly when the request passed the loss gate and the call
did not panic, whatever the proxy did; when in addition a request `r` was
dispatched, `ResponseStatus` is the code of the last `WriteHeader` of the proxy
(the status of the capture before the call if there is none) and
`ResponseLength` is the value of `ContentLength` on the capture. -/
theorem sendRequest_received_flag (lib : Lib) (rnd : Rand) (mirror : HttpMirror)
    (request_info : RequestInfo) (response : RedirectResponseWriter) (send_copy : Bool) :
    ∃ record,
      statRecords (mirror.SendRequest lib rnd request_info response send_copy).events =
          [record] ∧
        (record.WasReceived = true ↔
          ¬ rnd.Float64 < mirror.Settings.LossProbability ∧
            (mirror.SendRequest lib rnd request_info response send_copy).panicked = none) ∧
        ∀ r,
          servedRequests (mirror.SendRequest lib rnd request_info response send_copy).events =
              [r] →
            (mirror.SendRequest lib rnd request_info response send_copy).panicked = none →
            record.ResponseStatus = lastStatus (mirror.Proxy r) response.Status ∧
              (mirror.ServeHTTP response r).ContentLength lib = .ok record.ResponseLength := by
  refine ⟨_, statRecords_sendRequest lib rnd mirror request_info response send_copy, ?_, ?_⟩
  · by_cases hlost : rnd.Float64 < mirror.Settings.LossProbability
    · simp [HttpMirror.SendRequest, sendRequestBody_lost _ _ _ _ _ _ hlost, hlost]
    · rcases hprep : prepareRequest lib mirror request_info send_copy with p | request
      · simp [HttpMirror.SendRequest,
          sendRequestBody_prepare_panic _ _ _ _ _ _ p hlost hprep]
      · rcases hlen : (dispatch mirror response request).2.ContentLength lib with p | length
        · simp [HttpMirror.SendRequest,
            sendRequestBody_length_panic _ _ _ _ _ _ request p hlost hprep hlen]
        · simp [HttpMirror.SendRequest,
            sendRequestBody_complete _ _ _ _ _ _ request length hlost hprep hlen, hlost]
  · intro r hserved hpanic
    by_cases hlost : rnd.Float64 < mirror.Settings.LossProbability
    · simp [HttpMirror.SendRequest, sendRequestBody_lost _ _ _ _ _ _ hlost,
        servedRequests] at hserved
    · rcases hprep : prepareRequest lib mirror request_info send_copy with p | request
      · simp [HttpMirror.SendRequest,
          sendRequestBody_prepare_panic _ _ _ _ _ _ p hlost hprep] at hpanic
      · rcases hlen : (dispatch mirror response request).2.ContentLength lib with p | length
        · simp [HttpMirror.SendRequest,
            sendRequestBody_length_panic _ _ _ _ _ _ request p hlost hprep hlen] at hpanic
        · rw [HttpMirror.SendRequest,
            sendRequestBody_complete _ _ _ _ _ _ request length hlost hprep hlen] at hserved
          rw [sendRequestBody_complete _ _ _ _ _ _ request length hlost hprep hlen]
          cases request with
          | none =>
            simp [servedRequests_append, servedRequests_latencyEvents, servedRequests,
              dispatch] at hserved
          | some r2 =>
            simp only [servedRequests_append, servedRequests_latencyEvents, servedRequests,
              dispatch, List.nil_append, List.append_nil, List.cons.injEq, and_true] at hserved
            subst hserved
            exact ⟨serveHTTP_status mirror response r2, hlen⟩

/-- Instance of `sendRequest_received_flag`: the run of the counterexample.
The clone is dispatched, the call does not panic, and the record has
`WasReceived = true` and `ResponseStatus = 502`. -/
theorem sendRequest_received_flag_witness :
    servedRequests (unreachableMirror.SendRequest (sampleLib false) ⟨0, 0⟩
        ⟨some sampleRequest, 7⟩ (CreateRedirectWriter none) true).events = [sampleClone] ∧
      (unreachableMirror.SendRequest (sampleLib false) ⟨0, 0⟩ ⟨some sampleRequest, 7⟩
        (CreateRedirectWriter none) true).panicked = none ∧
      ∃ record,
        statRecords (unreachableMirror.SendRequest (sampleLib false) ⟨0, 0⟩
            ⟨some sampleRequest, 7⟩ (CreateRedirectWriter none) true).events = [record] ∧
          record.WasReceived = true ∧ record.ResponseStatus = 502 := by
  have hserved : servedRequests (unreachableMirror.SendRequest (sampleLib false) ⟨0, 0⟩
      ⟨some sampleRequest, 7⟩ (CreateRedirectWriter none) true).events = [sampleClone] := by
    simp [HttpMirror.SendRequest, sendRequestBody, unreachableMirror, prepareRequest, Copy,
      sampleLib, ChangeDestination, dispatch, HttpMirror.ServeHTTP, WriterOp.apply,
      RedirectResponseWriter.WriteHeader, RedirectResponseWriter.ContentLength,
      RedirectResponseWriter.Header, CreateRedirectWriter, contentLengthValue, latencyEvents,
      servedRequests, sampleClone]
  have hpanic : (unreachableMirror.SendRequest (sampleLib false) ⟨0, 0⟩
      ⟨some sampleRequest, 7⟩ (CreateRedirectWriter none) true).panicked = none := by
    simp [HttpMirror.SendRequest, sendRequestBody, unreachableMirror, prepareRequest, Copy,
      sampleLib, ChangeDestination, dispatch, HttpMirror.ServeHTTP, WriterOp.apply,
      RedirectResponseWriter.WriteHeader, RedirectResponseWriter.ContentLength,
      RedirectResponseWriter.Header, CreateRedirectWriter, contentLengthValue]
  obtain ⟨record, hrecord, hflag, hstatus⟩ :=
    sendRequest_received_flag (sampleLib false) ⟨0, 0⟩ unreachableMirror
      ⟨some sampleRequest, 7⟩ (CreateRedirectWriter none) true
  exact ⟨hserved, hpanic, record, hrecord,
    hflag.mpr ⟨by simp [unreachableMirror], hpanic⟩, (hstatus sampleClone hserved hpanic).1⟩

/-! ## C9: the length of a response -/

/-- C9, counterexample.  The capture holds `Content-Length: 5` and
`Transfer-Encoding: gzip`, which is not chunked; the sample `ParseInt` reads
`5` as 5; `ContentLength` returns 0 whatever the library does. -/
theorem contentLength_gzip_counterexample :
    gzipWriter.Header "Content-Length" = some ["5"] ∧
      gzipWriter.Header "Transfer-Encoding" = some ["gzip"] ∧
      (sampleLib false).ParseInt "5" 0 0 = .ok 5 ∧
      ∀ lib : Lib, gzipWriter.ContentLength lib = .ok 0 := by
  refine ⟨?_, ?_, ?_, fun lib => ?_⟩
  · simp [gzipWriter, RedirectResponseWriter.Header, RedirectResponseWriter.setHeader,
      CreateRedirectWriter, Header.set]
  · simp [gzipWriter, RedirectResponseWriter.Header, RedirectResponseWriter.setHeader,
      CreateRedirectWriter, Header.set]
  · rfl
  · simp [gzipWriter, RedirectResponseWriter.ContentLength, RedirectResponseWriter.Header,
      RedirectResponseWriter.setHeader, CreateRedirectWriter, Header.set]

/-- C9, amended.  For headers whose `Transfer-Encoding` and `Content-Length`
entries, when present, hold at least one value: `ContentLength` returns the
value `strconv.ParseInt` (base 0) gives for the first `Content-Length` value
when `Transfer-Encoding` is absent or has `identity` as its first value and
that parse succeeds; it returns 0 when `Transfer-Encoding` has another first
value, when `Content-Length` is absent and when the parse fails.  It does not
panic on such headers. -/
theorem contentLength_cases (lib : Lib) (writer : RedirectResponseWriter)
    (hte : writer.Header "Transfer-Encoding" ≠ some [])
    (hcl : writer.Header "Content-Length" ≠ some []) :
    (∀ cl0 rest length, identityOrAbsent writer.Header →
        writer.Header "Content-Length" = some (cl0 :: rest) →
        lib.ParseInt cl0 0 0 = .ok length → writer.ContentLength lib = .ok length) ∧
      (¬ identityOrAbsent writer.Header → writer.ContentLength lib = .ok 0) ∧
      (writer.Header "Content-Length" = none → writer.ContentLength lib = .ok 0) ∧
      (∀ cl0 rest e, writer.Header "Content-Length" = some (cl0 :: rest) →
        lib.ParseInt cl0 0 0 = .error e → writer.ContentLength lib = .ok 0) ∧
      ∃ length, writer.ContentLength lib = .ok length := by
  have hvalue_none : writer.Header "Content-Length" = none →
      contentLengthValue lib writer.Header = .ok 0 := by
    intro h; simp [contentLengthValue, h]
  have hvalue_ok : ∀ cl0 rest length, writer.Header "Content-Length" = some (cl0 :: rest) →
      lib.ParseInt cl0 0 0 = .ok length → contentLengthValue lib writer.Header = .ok length := by
    intro cl0 rest length h hp; simp [contentLengthValue, h, hp]
  have hvalue_err : ∀ cl0 rest e, writer.Header "Content-Length" = some (cl0 :: rest) →
      lib.ParseInt cl0 0 0 = .error e → contentLengthValue lib writer.Header = .ok 0 := by
    intro cl0 rest e h hp; simp [contentLengthValue, h, hp]
  have hvalue_total : ∃ length, contentLengthValue lib writer.Header = .ok length := by
    rcases hc : writer.Header "Content-Length" with _ | ⟨_ | ⟨cl0, rest⟩⟩
    · exact ⟨0, hvalue_none hc⟩
    · exact absurd hc hcl
    · rcases hp : lib.ParseInt cl0 0 0 with e | length
      · exact ⟨0, hvalue_err cl0 rest e hc hp⟩
      · exact ⟨length, hvalue_ok cl0 rest length hc hp⟩
  rcases ht : writer.Header "Transfer-Encoding" with _ | ⟨_ | ⟨te0, terest⟩⟩
  · have hgate : writer.ContentLength lib = contentLengthValue lib writer.Header := by
      simp [RedirectResponseWriter.ContentLength, ht]
    have hid : identityOrAbsent writer.Header := Or.inl ht
    refine ⟨fun cl0 rest length _ h hp => hgate.trans (hvalue_ok cl0 rest length h hp),
      fun hn => absurd hid hn, fun h => hgate.trans (hvalue_none h),
      fun cl0 rest e h hp => hgate.trans (hvalue_err cl0 rest e h hp), ?_⟩
    rw [hgate]; exact hvalue_total
  · exact absurd ht hte
  · by_cases hte0 : te0 = "identity"
    · have hgate : writer.ContentLength lib = contentLengthValue lib writer.Header := by
        simp [RedirectResponseWriter.ContentLength, ht, hte0]
      have hid : identityOrAbsent writer.Header := Or.inr ⟨terest, by rw [ht, hte0]⟩
      refine ⟨fun cl0 rest length _ h hp => hgate.trans (hvalue_ok cl0 rest length h hp),
        fun hn => absurd hid hn, fun h => hgate.trans (hvalue_none h),
        fun cl0 rest e h hp => hgate.trans (hvalue_err cl0 rest e h hp), ?_⟩
      rw [hgate]; exact hvalue_total
    · have hzero : writer.ContentLength lib = .ok 0 := by
        simp [RedirectResponseWriter.ContentLength, ht, hte0]
      have hid : ¬ identityOrAbsent writer.Header := by
        rintro (h | ⟨rest, h⟩)
        · rw [ht] at h; exact absurd h (by simp)
        · rw [ht] at h
          simp only [Option.some.injEq, List.cons.injEq] at h
          exact hte0 h.1
      exact ⟨fun _ _ _ h => absurd h hid, fun _ => hzero, fun _ => hzero,
        fun _ _ _ _ _ => hzero, 0, hzero⟩

/-- Instance of `contentLength_cases`: a capture with `Content-Length: 2` and
no `Transfer-Encoding`. -/
theorem contentLength_cases_witness :
    lengthWriter.Header "Transfer-Encoding" ≠ some [] ∧
      lengthWriter.Header "Content-Length" ≠ some [] ∧
      identityOrAbsent lengthWriter.Header ∧
      lengthWriter.Header "Content-Length" = some ["2"] ∧
      (sampleLib false).ParseInt "2" 0 0 = .ok 2 ∧
      lengthWriter.ContentLength (sampleLib false) = .ok 2 := by
  have hte : lengthWriter.Header "Transfer-Encoding" = none := by
    simp [lengthWriter, RedirectResponseWriter.Header, RedirectResponseWriter.setHeader,
      CreateRedirectWriter, Header.set]
  have hcl : lengthWriter.Header "Content-Length" = some ["2"] := by
    simp [lengthWriter, RedirectResponseWriter.Header, RedirectResponseWriter.setHeader,
      CreateRedirectWriter, Header.set]
  have hparse : (sampleLib false).ParseInt "2" 0 0 = .ok 2 := rfl
  exact ⟨by simp [hte], by simp [hcl], Or.inl hte, hcl, hparse,
    (contentLength_cases (sampleLib false) lengthWriter (by simp [hte]) (by simp [hcl])).1
      "2" [] 2 (Or.inl hte) hcl hparse⟩

/-- The indexing `te[0]` panics on a `Transfer-Encoding` entry without values. -/
theorem contentLength_empty_entry (lib : Lib) :
    ((CreateRedirectWriter none).setHeader "Transfer-Encoding" []).ContentLength lib =
      .error GoPanic.indexOutOfRange := by
  simp [RedirectResponseWriter.ContentLength, RedirectResponseWriter.Header,
    RedirectResponseWriter.setHeader, CreateRedirectWriter, Header.set]

/-! ## C10: the form of a sink description -/

/-- C10.  What the code does on a description written as the usage text says,
`ADDRESS:LATENCY:LOSS_PROBABILITY`: the string `example.com:100ms:0.5` holds no
`;`, so the whole of it becomes the address, neither parser is called, and
the latency and the loss probability stay 0. -/
theorem parseSinkSettings_colon_form :
    ∀ lib : Lib, parseSinkSettings lib "example.com:100ms:0.5" =
      .ok ⟨"example.com:100ms:0.5", 0, 0⟩ := by
  intro lib
  rfl

/-- The separator the code splits on is `;`: the same three fields written
with it are parsed as the usage text describes. -/
theorem parseSinkSettings_semicolon_form (lib : Lib) (latency : Int) (loss : ℚ)
    (hduration : lib.ParseDuration "100ms" = .ok latency)
    (hfloat : lib.ParseFloat "0.5" 64 = .ok loss) :
    parseSinkSettings lib "example.com;100ms;0.5" = .ok ⟨"example.com", latency, loss⟩ := by
  have hparts : stringsSplit "example.com;100ms;0.5" ';' = ["example.com", "100ms", "0.5"] := by
    decide
  simp [parseSinkSettings, hparts, hduration, hfloat]

end Gohmr
